import Mathlib

/-!
Verification of the sale blanket order module: quantity reconciliation,
state derivation, lifecycle actions and allocation validation, embedded
shallowly from `models/sale_blanket_order.py` and
`wizard/create_sale_orders.py`.  Monetary and quantity values are modelled
as exact rationals; `odoo.tools.float_is_zero` / `float_compare` are
modelled with explicit half-away-from-zero rounding at the given number of
decimal digits.  Dates are modelled as integers (days), record ids as
naturals, and the sequence service as a counter in an environment record.
-/

/-- Rounding half away from zero, as used by odoo float_round's default
ROUND_HALF_UP mode. -/
def roundHalfAwayFromZero (q : ℚ) : ℤ :=
  if 0 ≤ q then ⌊q + 1 / 2⌋ else -⌊-q + 1 / 2⌋

/-- Model of odoo.tools.float_round with precision_digits: round the value
to the nearest multiple of 10^(-digits), ties away from zero. -/
def float_round (q : ℚ) (digits : ℕ) : ℚ :=
  (roundHalfAwayFromZero (q * 10 ^ digits) : ℚ) / 10 ^ digits

/-- Model of odoo.tools.float_is_zero: the rounded value is smaller in
absolute value than the rounding factor. -/
def float_is_zero (q : ℚ) (digits : ℕ) : Prop :=
  |float_round q digits| < 1 / 10 ^ digits

instance (q : ℚ) (digits : ℕ) : Decidable (float_is_zero q digits) := by
  unfold float_is_zero
  infer_instance

/-- Model of odoo.tools.float_compare: compare the two values rounded at
the given precision, returning -1, 0 or 1. -/
def float_compare (a b : ℚ) (digits : ℕ) : ℤ :=
  let a2 := float_round a digits
  let b2 := float_round b digits
  if float_is_zero (a2 - b2) digits then 0
  else if a2 - b2 < 0 then -1 else 1

/-- display_type selection on a blanket order line: section or note. -/
inductive DisplayType
  | lineSection
  | lineNote
deriving DecidableEq, Repr

/-- Lifecycle states of a sale order (draw-down order). -/
inductive SaleOrderState
  | draft
  | sent
  | sale
  | done
  | cancel
deriving DecidableEq, Repr

/-- Lifecycle states of a blanket order; `opened` models the "open"
selection value (open is a Lean keyword). -/
inductive BOState
  | draft
  | opened
  | done
  | expired
deriving DecidableEq, Repr

/-- A unit of measure: its category and its factor relative to the
reference unit of the category. -/
structure UoM where
  categoryId : ℕ
  factor : ℚ
deriving DecidableEq, Repr

/-- Model of uom.uom._compute_quantity: converting between units of
different categories fails (raises, modelled as none); otherwise the
quantity is divided by the source factor and multiplied by the target
factor.  The final rounding to the target unit's rounding step is
idealised away (quantities are exact rationals). -/
def uom_compute_quantity (qty : ℚ) (fromUom toUom : UoM) : Option ℚ :=
  if fromUom.categoryId = toUom.categoryId then
    some (qty / fromUom.factor * toUom.factor)
  else none

/-- A sale order line (draw-down line) as read by the blanket order line
quantity aggregation: its parent order state, product, unit of measure and
the three tracked quantities. -/
structure SaleLine where
  orderState : SaleOrderState
  productId : Option ℕ
  productUom : Option UoM
  productUomQty : ℚ
  qtyDelivered : ℚ
  qtyInvoiced : ℚ
deriving DecidableEq, Repr

/-- A blanket order line record.  remainingUomQty is the stored computed
field read by the order-level state derivation; productBaseUom models
product_id.uom_id (none when no product is set). -/
structure BOLine where
  displayType : Option DisplayType
  productId : Option ℕ
  productUom : Option UoM
  productBaseUom : Option UoM
  priceUnit : ℚ
  originalUomQty : ℚ
  remainingUomQty : ℚ
  saleLines : List SaleLine
deriving DecidableEq, Repr

/-- Non-section lines: the filter `not line.display_type` used throughout
BlanketOrder. -/
def nonDisplayLines (lines : List BOLine) : List BOLine :=
  lines.filter (fun l => l.displayType = none)

/-- Model of BlanketOrder._compute_state: draft when not confirmed, else
expired when a validity date is set and has passed, else done when the
remaining quantity summed over non-display lines is zero within the
product-UoM precision, else open. -/
def compute_state (confirmed : Bool) (validityDate : Option ℤ) (lines : List BOLine)
    (today : ℤ) (precision : ℕ) : BOState :=
  let doneOrOpen :=
    let remaining := ((nonDisplayLines lines).map (·.remainingUomQty)).sum
    if float_is_zero remaining precision then BOState.done else BOState.opened
  if !confirmed then BOState.draft
  else
    match validityDate with
    | some d => if d ≤ today then BOState.expired else doneOrOpen
    | none => doneOrOpen

/-- Modelled from the spec: "Confirmed and validity date is set and
validity date ≤ today → expired", as an independent predicate. -/
def spec_is_expired (validityDate : Option ℤ) (today : ℤ) : Bool :=
  match validityDate with
  | some d => decide (d ≤ today)
  | none => false

/-- Modelled from the spec: "sum of remaining quantities over all
non-section lines", written with filterMap rather than the code's
filter-then-map. -/
def spec_remaining_total (lines : List BOLine) : ℚ :=
  (lines.filterMap
    (fun l => if l.displayType = none then some l.remainingUomQty else none)).sum

/-- Modelled from the spec: the four-case lifecycle state rule of section
4.2, stated independently of the code's control flow. -/
def state_rule_spec (confirmed : Bool) (validityDate : Option ℤ) (lines : List BOLine)
    (today : ℤ) (precision : ℕ) : BOState :=
  if confirmed = false then BOState.draft
  else if spec_is_expired validityDate today then BOState.expired
  else if float_is_zero (spec_remaining_total lines) precision then BOState.done
  else BOState.opened

/-! Quantity reconciliation: BlanketOrderLine._compute_quantities. -/

/-- The sale lines counted by the aggregation: parent order not cancelled
and product matching the blanket line's product. -/
def matching_sale_lines (line : BOLine) : List SaleLine :=
  line.saleLines.filter
    (fun sl => decide (sl.orderState ≠ SaleOrderState.cancel ∧ sl.productId = line.productId))

/-- One summand of the aggregation: when both units of measure are present
the draw-down quantity is converted to the blanket line's unit, and a
conversion failure (or a missing unit) falls back to the raw quantity. -/
def convert_or_raw (slUom lineUom : Option UoM) (qty : ℚ) : ℚ :=
  match lineUom, slUom with
  | some lu, some su =>
    match uom_compute_quantity qty su lu with
    | some converted => converted
    | none => qty
  | _, _ => qty

/-- Aggregation of one tracked quantity kind over the matching sale lines,
converting each to the blanket line's unit with raw fallback. -/
def fallback_sum (line : BOLine) (f : SaleLine → ℚ) : ℚ :=
  ((matching_sale_lines line).map
    (fun sl => convert_or_raw sl.productUom line.productUom (f sl))).sum

/-- The record of quantities produced by one run of _compute_quantities. -/
structure Quantities where
  orderedUomQty : ℚ
  invoicedUomQty : ℚ
  deliveredUomQty : ℚ
  remainingUomQty : ℚ
  remainingQty : ℚ
deriving DecidableEq, Repr

/-- Model of BlanketOrderLine._compute_quantities: sums ordered, invoiced
and delivered quantities over the non-cancelled product-matching sale
lines (unit-converted with raw fallback), clamps remaining at zero, and
converts remaining into the product's base unit (identity fallback).  The
interim `remaining = original` assignment of the empty-sale-lines branch
is overwritten by the final max(0, original - ordered) in the source, so
only the final value appears here. -/
def compute_quantities (line : BOLine) : Quantities :=
  let ordered := fallback_sum line (·.productUomQty)
  let remainingUom := max 0 (line.originalUomQty - ordered)
  let remainingBase :=
    match line.productUom, line.productBaseUom with
    | some lu, some bu =>
      match uom_compute_quantity remainingUom lu bu with
      | some converted => converted
      | none => remainingUom
    | _, _ => remainingUom
  { orderedUomQty := ordered
    invoicedUomQty := fallback_sum line (·.qtyInvoiced)
    deliveredUomQty := fallback_sum line (·.qtyDelivered)
    remainingUomQty := remainingUom
    remainingQty := remainingBase }

/-- The conversion of one matching sale line succeeds: both units present
and of the same category. -/
def conversion_ok (line : BOLine) (sl : SaleLine) : Bool :=
  match line.productUom, sl.productUom with
  | some lu, some su => decide (su.categoryId = lu.categoryId)
  | _, _ => false

/-- All matching sale lines of the blanket line convert successfully. -/
def all_convertible (line : BOLine) : Prop :=
  ∀ sl ∈ matching_sale_lines line, conversion_ok line sl = true

/-- Modelled from the spec: the ordered-quantity sum with every draw-down
quantity genuinely converted into the blanket line's unit of measure. -/
def spec_converted_sum (line : BOLine) : ℚ :=
  ((matching_sale_lines line).map
    (fun sl =>
      match line.productUom, sl.productUom with
      | some lu, some su => sl.productUomQty / su.factor * lu.factor
      | _, _ => sl.productUomQty)).sum

/-! Allocation validation: the create-sale-orders wizard. -/

/-- Errors raised by the wizard's quantity validation, carrying exactly
the data interpolated into each message. -/
inductive WizError
  | negativeQty
  | noRemaining (product : String)
  | exceedsAvailable (qty remaining : ℚ) (product : String)
  | cannotOrder (qty : ℚ) (product : String) (remaining : ℚ)
deriving DecidableEq, Repr

/-- Model of BlanketOrderWizardLine._check_qty_limits: negative quantities
are rejected; against a line whose remaining quantity is zero within
3-digit tolerance, quantities above the 0.001 rounding factor are rejected
with a product-naming error; otherwise a tolerance-aware comparison
rejects quantities exceeding the remaining quantity with an error naming
requested quantity, available quantity and product. -/
def check_qty_limits (qty remainingUomQty : ℚ) (product : String) : Option WizError :=
  if qty < 0 then some WizError.negativeQty
  else if float_is_zero remainingUomQty 3 then
    if qty > 1 / 10 ^ 3 then some (WizError.noRemaining product) else none
  else if 0 < float_compare qty remainingUomQty 3 then
    some (WizError.exceedsAvailable qty remainingUomQty product)
  else none

/-- Model of the per-line quantity guard inside
BlanketOrderWizard.create_sale_order: a raw (tolerance-free) comparison of
requested against remaining quantity. -/
def create_sale_order_line_check (qty remainingUomQty : ℚ) (product : String) :
    Option WizError :=
  if remainingUomQty < qty then some (WizError.cannotOrder qty product remainingUomQty)
  else none

/-- The validation a wizard line's requested quantity passes through on
the way to a created sale order: the constraint first (it fires when the
wizard line is populated), then the create_sale_order guard. -/
def wizard_qty_validation (qty remainingUomQty : ℚ) (product : String) :
    Option WizError :=
  match check_qty_limits qty remainingUomQty product with
  | some e => some e
  | none => create_sale_order_line_check qty remainingUomQty product

/-- An error message that names the requested quantity, the available
quantity and the product, with the values at hand. -/
def names_qty_and_product (e : WizError) (qty remaining : ℚ) (product : String) : Prop :=
  e = WizError.exceedsAvailable qty remaining product ∨
    e = WizError.cannotOrder qty product remaining

/-! Lifecycle actions: validate, confirm, cancel, reset to draft. -/

/-- Per-line validation errors of BlanketOrderLine._validate. -/
inductive LineErr
  | nonPositivePrice
  | nonPositiveQty
  | missingProduct
  | missingUom
deriving DecidableEq, Repr

/-- Order-level validation errors of BlanketOrder._validate. -/
inductive OrderErr
  | missingValidityDate
  | validityDateNotFuture
  | missingPartner
  | noLines
  | lineErrors (errs : List LineErr)
deriving DecidableEq, Repr

/-- Model of BlanketOrderLine._validate for one line: display lines are
exempt; product lines need a positive price, a positive quantity, a
product and a unit of measure. -/
def validate_line (l : BOLine) : List LineErr :=
  if l.displayType ≠ none then []
  else
    (if l.priceUnit ≤ 0 then [LineErr.nonPositivePrice] else []) ++
    (if l.originalUomQty ≤ 0 then [LineErr.nonPositiveQty] else []) ++
    (if l.productId = none then [LineErr.missingProduct] else []) ++
    (if l.productUom = none then [LineErr.missingUom] else [])

/-- Line-set validation: the source raises on the first line whose error
list is non-empty. -/
def lines_validate (lines : List BOLine) : Option (List LineErr) :=
  lines.findSome? (fun l =>
    let e := validate_line l
    if e = [] then none else some e)

/-- A blanket order record.  The reference name is modelled as an optional
sequence number (none models the unconfirmed "Draft" placeholder); state
is the stored value of the computed state field. -/
structure OrderRec where
  confirmed : Bool
  validityDate : Option ℤ
  partnerId : Option ℕ
  lines : List BOLine
  name : Option ℕ
  state : BOState
deriving DecidableEq, Repr

/-- The transactional environment: today's date, the sequence counter of
the ir.sequence service, and the states of the sale orders drawing down on
the blanket order under consideration. -/
structure Env where
  today : ℤ
  seq : ℕ
  drawdownStates : List SaleOrderState
deriving DecidableEq, Repr

/-- Model of BlanketOrder._validate: collects validity-date, partner and
line errors; the line set inspected is the non-display lines. -/
def validate_order (o : OrderRec) (today : ℤ) : List OrderErr :=
  (match o.validityDate with
   | none => [OrderErr.missingValidityDate]
   | some d => if d ≤ today then [OrderErr.validityDateNotFuture] else []) ++
  (if o.partnerId = none then [OrderErr.missingPartner] else []) ++
  (match nonDisplayLines o.lines with
   | [] => [OrderErr.noLines]
   | ls =>
     match lines_validate ls with
     | some errs => [OrderErr.lineErrors errs]
     | none => [])

/-- Recomputation of the stored state field, as triggered by a write to
any of its dependencies. -/
def recompute_state (o : OrderRec) (today : ℤ) (precision : ℕ) : OrderRec :=
  { o with state := compute_state o.confirmed o.validityDate o.lines today precision }

/-- Model of BlanketOrder.action_confirm: validates first (all orders,
confirmed or not), skips already-confirmed orders, otherwise draws the
next sequence number as the reference name, sets the confirmed flag, and
the write of confirmed triggers the state recomputation. -/
def action_confirm (env : Env) (precision : ℕ) (o : OrderRec) :
    Except (List OrderErr) (OrderRec × Env) :=
  let errs := validate_order o env.today
  if errs ≠ [] then Except.error errs
  else if o.confirmed then Except.ok (o, env)
  else
    let o2 := recompute_state { o with confirmed := true, name := some env.seq }
      env.today precision
    Except.ok (o2, { env with seq := env.seq + 1 })

/-- Model of BlanketOrder._check_active_orders: a referencing sale order
counts as active when its state is neither cancel nor draft. -/
def check_active_orders (drawdownStates : List SaleOrderState) : Bool :=
  drawdownStates.any
    (fun s => decide (s ≠ SaleOrderState.cancel ∧ s ≠ SaleOrderState.draft))

/-- Cancellation error. -/
inductive CancelErr
  | activeOrders
deriving DecidableEq, Repr

/-- Model of BlanketOrder.action_cancel: refuses while an active
referencing sale order exists, otherwise writes state = expired directly
(a write that does not touch any dependency of the state computation), and
skips the write when the state is already expired. -/
def action_cancel (o : OrderRec) (drawdownStates : List SaleOrderState) :
    Except CancelErr OrderRec :=
  if check_active_orders drawdownStates then Except.error CancelErr.activeOrders
  else if o.state ≠ BOState.expired then Except.ok { o with state := BOState.expired }
  else Except.ok o

/-- Model of BlanketOrder.set_to_draft: writes state = draft and
confirmed = false when not already a draft; the write of confirmed
triggers the state recomputation. -/
def set_to_draft (o : OrderRec) (today : ℤ) (precision : ℕ) : OrderRec :=
  if o.state ≠ BOState.draft ∨ o.confirmed then
    recompute_state { o with confirmed := false, state := BOState.draft } today precision
  else o

/-- The user-triggered operations that touch the stored state field.  The
sequence counter is held fixed across a run: the reference name is not
part of the state-purity question. -/
inductive BOOp
  | recompute
  | confirmOp
  | cancelOp
  | resetToDraft
deriving DecidableEq, Repr

/-- One operation applied to an order; a failed action leaves the order
unchanged (the transaction rolls back). -/
def apply_op (env : Env) (precision : ℕ) (o : OrderRec) : BOOp → OrderRec
  | BOOp.recompute => recompute_state o env.today precision
  | BOOp.confirmOp =>
    match action_confirm env precision o with
    | Except.ok (o2, _) => o2
    | Except.error _ => o
  | BOOp.cancelOp =>
    match action_cancel o env.drawdownStates with
    | Except.ok o2 => o2
    | Except.error _ => o
  | BOOp.resetToDraft => set_to_draft o env.today precision

/-- A run of operations against one order. -/
def run_ops (env : Env) (precision : ℕ) (o : OrderRec) : List BOOp → OrderRec
  | [] => o
  | op :: ops => run_ops env precision (apply_op env precision o op) ops

/-! Line creation and the SQL check constraints. -/

/-- The values supplied to BlanketOrderLine.create. -/
structure LineVals where
  displayType : Option DisplayType
  productId : Option ℕ
  productUom : Option UoM
  productBaseUom : Option UoM
  priceUnit : ℚ
  originalUomQty : ℚ
deriving DecidableEq, Repr

/-- Model of BlanketOrderLine.create: when a display type is supplied the
product, price and unit-of-measure values are overwritten with
False/0/False regardless of what was passed; the stored remaining quantity
of a fresh line (no sale lines) is max(0, original). -/
def line_create (v : LineVals) : BOLine :=
  if v.displayType ≠ none then
    { displayType := v.displayType
      productId := none
      productUom := none
      productBaseUom := none
      priceUnit := 0
      originalUomQty := v.originalUomQty
      remainingUomQty := max 0 v.originalUomQty
      saleLines := [] }
  else
    { displayType := none
      productId := v.productId
      productUom := v.productUom
      productBaseUom := v.productBaseUom
      priceUnit := v.priceUnit
      originalUomQty := v.originalUomQty
      remainingUomQty := max 0 v.originalUomQty
      saleLines := [] }

/-- The non_accountable_null_fields SQL check constraint: display_type IS
NULL OR (product_id IS NULL AND price_unit = 0 AND product_uom IS NULL). -/
def non_accountable_null_fields (l : BOLine) : Prop :=
  l.displayType = none ∨
    (l.productId = none ∧ l.priceUnit = 0 ∧ l.productUom = none)

/-- The accountable_required_fields SQL check constraint: display_type IS
NOT NULL OR (product_id IS NOT NULL AND product_uom IS NOT NULL). -/
def accountable_required_fields (l : BOLine) : Prop :=
  l.displayType ≠ none ∨ (l.productId ≠ none ∧ l.productUom ≠ none)

/-! Concrete records used by witnesses and counterexamples. -/

/-- A well-formed product line: positive price and quantity, product and
unit present, no draw-down lines yet. -/
def sampleLine : BOLine :=
  { displayType := none
    productId := some 7
    productUom := some { categoryId := 1, factor := 1 }
    productBaseUom := some { categoryId := 1, factor := 1 }
    priceUnit := 5
    originalUomQty := 10
    remainingUomQty := 10
    saleLines := [] }

/-- A draft order that passes every confirmation check when today = 0. -/
def sampleOrder : OrderRec :=
  { confirmed := false
    validityDate := some 30
    partnerId := some 3
    lines := [sampleLine]
    name := none
    state := BOState.draft }

/-- The environment for the sample order: today 0, fresh sequence, no
draw-down orders. -/
def sampleEnv : Env :=
  { today := 0, seq := 0, drawdownStates := [] }

/-- An already-confirmed order whose validity date has meanwhile been
reached (validity date 0 = today). -/
def staleConfirmedOrder : OrderRec :=
  { confirmed := true
    validityDate := some 0
    partnerId := some 3
    lines := [sampleLine]
    name := some 0
    state := BOState.opened }

/-- Line-creation values carrying a section display type together with a
product, a price and a unit of measure, which create must strip. -/
def sectionVals : LineVals :=
  { displayType := some DisplayType.lineSection
    productId := some 5
    productUom := some { categoryId := 2, factor := 1 }
    productBaseUom := some { categoryId := 2, factor := 1 }
    priceUnit := 9
    originalUomQty := 3 }

/-! Helper lemmas. -/

theorem roundHalfAwayFromZero_zero : roundHalfAwayFromZero 0 = 0 := by
  simp [roundHalfAwayFromZero]
  norm_num

theorem float_is_zero_zero (digits : ℕ) : float_is_zero 0 digits := by
  simp [float_is_zero, float_round, roundHalfAwayFromZero_zero]

theorem float_compare_self (a : ℚ) (digits : ℕ) : float_compare a a digits = 0 := by
  simp [float_compare, sub_self, float_is_zero_zero]

theorem spec_remaining_total_eq (lines : List BOLine) :
    spec_remaining_total lines
      = ((nonDisplayLines lines).map (·.remainingUomQty)).sum := by
  unfold spec_remaining_total nonDisplayLines
  induction lines with
  | nil => rfl
  | cons l ls ih =>
    by_cases h : l.displayType = none
    · simp [List.filterMap_cons, List.filter_cons, h, ih]
    · simp [List.filterMap_cons, List.filter_cons, h, ih]

theorem sum_map_filter_split {α : Type} (l : List α) (p : α → Bool) (f g : α → ℚ)
    (hg : ∀ a ∈ l, p a = false → f a = g a) :
    (l.map f).sum
      = ((l.filter p).map f).sum + ((l.filter (fun a => !p a)).map g).sum := by
  induction l with
  | nil => simp
  | cons x xs ih =>
    have ih2 := ih (fun a ha hpa => hg a (List.mem_cons_of_mem x ha) hpa)
    by_cases h : p x
    · simp [List.filter_cons, h, ih2]
      ring
    · have hx := hg x (List.mem_cons_self x xs) (by simpa using h)
      simp [List.filter_cons, h, ih2, hx]
      ring

theorem fallback_sum_eq_spec (line : BOLine) (h : all_convertible line) :
    fallback_sum line (·.productUomQty) = spec_converted_sum line := by
  unfold fallback_sum spec_converted_sum
  congr 1
  apply List.map_congr_left
  intro sl hsl
  have hc := h sl hsl
  unfold conversion_ok at hc
  cases hlu : line.productUom with
  | none => rw [hlu] at hc; exact absurd hc (by simp)
  | some lu =>
    cases hsu : sl.productUom with
    | none => rw [hlu, hsu] at hc; exact absurd hc (by simp)
    | some su =>
      rw [hlu, hsu] at hc
      have hcat : su.categoryId = lu.categoryId := by simpa using hc
      simp [convert_or_raw, uom_compute_quantity, hlu, hsu, hcat]

/-! Claim theorems. -/

/-- C1: the derived lifecycle state computed by BlanketOrder._compute_state
equals exactly the spec's four-case rule: draft when not confirmed, else
expired when a validity date is set and ≤ today, else done when the sum of
remaining quantities over non-section lines is zero within the product-UoM
precision, else open. -/
theorem compute_state_matches_four_case_rule (confirmed : Bool)
    (validityDate : Option ℤ) (lines : List BOLine) (today : ℤ) (precision : ℕ) :
    compute_state confirmed validityDate lines today precision
      = state_rule_spec confirmed validityDate lines today precision := by
  unfold compute_state state_rule_spec spec_is_expired
  rw [spec_remaining_total_eq]
  cases confirmed with
  | false => simp
  | true =>
    cases validityDate with
    | none => simp
    | some d =>
      by_cases h : d ≤ today
      · simp [h]
      · simp [h]

/-- C2: the remaining quantity recomputed by
BlanketOrderLine._compute_quantities is never negative, and whenever every
matching draw-down line's unit of measure converts into the blanket
line's, it equals max(0, original committed quantity minus the sum of the
non-cancelled product-matching draw-down quantities converted to the
line's unit of measure). -/
theorem remaining_qty_never_negative_and_max_rule (line : BOLine) :
    0 ≤ (compute_quantities line).remainingUomQty ∧
    (all_convertible line →
      (compute_quantities line).remainingUomQty
        = max 0 (line.originalUomQty - spec_converted_sum line)) := by
  constructor
  · simp [compute_quantities]
  · intro h
    simp only [compute_quantities]
    rw [fallback_sum_eq_spec line h]

/-- C2 witness: a line with original quantity 10 and a single draw-down of
4 units in a convertible unit has remaining quantity max(0, 10 - 4) = 6,
and it is non-negative. -/
theorem remaining_qty_rule_witness :
    0 ≤ (compute_quantities
      { sampleLine with
        saleLines := [{ orderState := SaleOrderState.sale, productId := some 7,
                        productUom := some { categoryId := 1, factor := 1 },
                        productUomQty := 4, qtyDelivered := 0, qtyInvoiced := 0 }] }).remainingUomQty ∧
    (compute_quantities
      { sampleLine with
        saleLines := [{ orderState := SaleOrderState.sale, productId := some 7,
                        productUom := some { categoryId := 1, factor := 1 },
                        productUomQty := 4, qtyDelivered := 0, qtyInvoiced := 0 }] }).remainingUomQty
      = max 0 ((10 : ℚ) - spec_converted_sum
          { sampleLine with
            saleLines := [{ orderState := SaleOrderState.sale, productId := some 7,
                            productUom := some { categoryId := 1, factor := 1 },
                            productUomQty := 4, qtyDelivered := 0, qtyInvoiced := 0 }] }) := by
  refine ⟨(remaining_qty_never_negative_and_max_rule _).1,
    (remaining_qty_never_negative_and_max_rule _).2 ?_⟩
  intro sl hsl
  simp [matching_sale_lines, sampleLine] at hsl
  subst hsl
  simp [conversion_ok, sampleLine]

/-- C8: the ordered-quantity aggregation never aborts on a unit conversion
failure: it always equals the converted sum over the lines whose
conversion succeeds plus the raw (unconverted) quantities of the lines
whose conversion fails, which are only ever a logged fallback. -/
theorem conversion_fallback_partition (line : BOLine) :
    (compute_quantities line).orderedUomQty
      = (((matching_sale_lines line).filter (fun sl => conversion_ok line sl)).map
          (fun sl => convert_or_raw sl.productUom line.productUom sl.productUomQty)).sum
        + (((matching_sale_lines line).filter (fun sl => !conversion_ok line sl)).map
          (·.productUomQty)).sum := by
  have h : (compute_quantities line).orderedUomQty
      = fallback_sum line (·.productUomQty) := rfl
  rw [h]
  unfold fallback_sum
  apply sum_map_filter_split
  intro sl _ hfail
  unfold conversion_ok at hfail
  cases hlu : line.productUom with
  | none => simp [convert_or_raw, hlu]
  | some lu =>
    cases hsu : sl.productUom with
    | none => simp [convert_or_raw, hlu, hsu]
    | some su =>
      rw [hlu, hsu] at hfail
      have hcat : ¬ su.categoryId = lu.categoryId := by simpa using hfail
      simp [convert_or_raw, uom_compute_quantity, hlu, hsu, hcat]

/-- C9 counterexample: against an exhausted line (remaining quantity 0,
zero within tolerance), the strictly positive requested quantity 0.001 is
accepted by _check_qty_limits, although the claim says every strictly
positive request is rejected. -/
theorem small_positive_qty_accepted_on_exhausted_line :
    float_is_zero (0 : ℚ) 3 ∧ (0 : ℚ) < 1 / 10 ^ 3 ∧
    check_qty_limits (1 / 10 ^ 3) 0 "P" = none := by
  refine ⟨float_is_zero_zero 3, by norm_num, ?_⟩
  norm_num [check_qty_limits, float_is_zero_zero]

/-- C9 amended: on a line whose remaining quantity is zero within the
3-digit tolerance, a requested quantity strictly greater than the 0.001
rounding factor is rejected with the product-naming "no remaining
quantity" error, and any requested quantity between 0 and 0.001 inclusive
(in particular exactly 0) is accepted. -/
theorem exhausted_line_tolerance_rule (qty remaining : ℚ) (product : String)
    (hz : float_is_zero remaining 3) (hq : 0 ≤ qty) :
    (1 / 10 ^ 3 < qty →
      check_qty_limits qty remaining product = some (WizError.noRemaining product)) ∧
    (qty ≤ 1 / 10 ^ 3 → check_qty_limits qty remaining product = none) := by
  have hnneg : ¬ qty < 0 := not_lt.mpr hq
  constructor
  · intro h
    rw [one_div] at h
    simp [check_qty_limits, hnneg, hz, h]
  · intro h
    rw [one_div] at h
    simp [check_qty_limits, hnneg, hz, not_lt.mpr h]

/-- C9 witness: requesting 1 against an exhausted line is rejected with
the no-remaining error; requesting exactly 0 is accepted. -/
theorem exhausted_line_tolerance_witness :
    check_qty_limits 1 0 "P" = some (WizError.noRemaining "P") ∧
    check_qty_limits 0 0 "P" = none := by
  exact ⟨(exhausted_line_tolerance_rule 1 0 "P" (float_is_zero_zero 3)
            (by norm_num)).1 (by norm_num),
         (exhausted_line_tolerance_rule 0 0 "P" (float_is_zero_zero 3)
            le_rfl).2 (by norm_num)⟩

/-- C3 counterexample: requesting 1 against a line with remaining quantity
0 is a tolerance-aware strict excess, but the rejection it meets is the
"no remaining quantity" error naming only the product, not an error naming
the requested and available quantities. -/
theorem allocation_error_content_counterexample :
    0 < float_compare 1 0 3 ∧
    wizard_qty_validation 1 0 "P" = some (WizError.noRemaining "P") ∧
    ¬ names_qty_and_product (WizError.noRemaining "P") 1 0 "P" := by
  have hchk : check_qty_limits 1 0 "P" = some (WizError.noRemaining "P") := by
    norm_num [check_qty_limits, float_is_zero_zero]
  refine ⟨?_, ?_, ?_⟩
  · norm_num [float_compare, float_is_zero, float_round, roundHalfAwayFromZero, abs_lt]
  · simp [wizard_qty_validation, hchk]
  · simp [names_qty_and_product]

/-- C3 amended: on a line whose remaining quantity is not within tolerance
of zero, a request exceeding the remaining quantity in the 3-digit
tolerance-aware comparison is rejected by the wizard-line constraint with
the error naming the requested quantity, the available quantity and the
product; requesting exactly the remaining quantity passes both the
constraint and the create_sale_order guard.  (On an exhausted line the
separate no-remaining rule applies instead.) -/
theorem allocation_ceiling_tolerance_rule (qty remaining : ℚ) (product : String)
    (hnz : ¬ float_is_zero remaining 3) (hq : 0 ≤ qty) :
    (0 < float_compare qty remaining 3 →
      wizard_qty_validation qty remaining product
        = some (WizError.exceedsAvailable qty remaining product)) ∧
    (qty = remaining → wizard_qty_validation qty remaining product = none) := by
  have hnneg : ¬ qty < 0 := not_lt.mpr hq
  constructor
  · intro h
    simp [wizard_qty_validation, check_qty_limits, hnneg, hnz, h]
  · intro h
    subst h
    have hcmp : float_compare qty qty 3 = 0 := float_compare_self qty 3
    simp [wizard_qty_validation, check_qty_limits, create_sale_order_line_check,
      hnneg, hnz, hcmp]

/-- C3 witness: requesting 3 against remaining 2 is rejected with the
error naming 3, 2 and the product; requesting exactly 2 passes. -/
theorem allocation_ceiling_rule_witness :
    wizard_qty_validation 3 2 "P" = some (WizError.exceedsAvailable 3 2 "P") ∧
    wizard_qty_validation 2 2 "P" = none := by
  have hnz2 : ¬ float_is_zero (2 : ℚ) 3 := by
    norm_num [float_is_zero, float_round, roundHalfAwayFromZero, abs_lt]
  have hcmp : (0 : ℤ) < float_compare 3 2 3 := by
    norm_num [float_compare, float_is_zero, float_round, roundHalfAwayFromZero, abs_lt]
  exact ⟨(allocation_ceiling_tolerance_rule 3 2 "P" hnz2 (by norm_num)).1 hcmp,
         (allocation_ceiling_tolerance_rule 2 2 "P" hnz2 (by norm_num)).2 rfl⟩

/-- The sample order after a successful confirmation at today = 0. -/
def confirmedSampleOrder : OrderRec :=
  { sampleOrder with confirmed := true, name := some 0, state := BOState.opened }

/-- The sample environment after one sequence draw. -/
def sampleEnvAfter : Env :=
  { sampleEnv with seq := 1 }

/-! Lifecycle helper lemmas and evaluations. -/

theorem sample_line_validate_ok : validate_line sampleLine = [] := by
  norm_num [validate_line, sampleLine]
  exact ⟨by simp, by simp⟩

theorem sample_validate_ok : validate_order sampleOrder 0 = [] := by
  have h2 : nonDisplayLines [sampleLine] = [sampleLine] := by
    simp [nonDisplayLines, sampleLine, List.filter]
  simp only [validate_order, sampleOrder, h2, lines_validate, List.findSome?,
    sample_line_validate_ok]
  norm_num
  simp

theorem not_float_is_zero_ten : ¬ float_is_zero (10 : ℚ) 2 := by
  norm_num [float_is_zero, float_round, roundHalfAwayFromZero, abs_lt]

theorem sample_confirm_eval :
    action_confirm sampleEnv 2 sampleOrder
      = Except.ok (confirmedSampleOrder, sampleEnvAfter) := by
  simp only [action_confirm]
  rw [show sampleEnv.today = (0 : ℤ) from rfl, sample_validate_ok]
  norm_num [sampleOrder, sampleEnv, recompute_state, compute_state,
    nonDisplayLines, List.filter, sampleLine, not_float_is_zero_ten,
    confirmedSampleOrder, sampleEnvAfter]

/-- C4 counterexample: action_confirm validates before the idempotence
skip, so confirming an already-confirmed order whose validity date has
meanwhile been reached raises a validation error instead of being a
no-op. -/
theorem second_confirm_can_fail_validation :
    staleConfirmedOrder.confirmed = true ∧
    action_confirm sampleEnv 2 staleConfirmedOrder
      = Except.error [OrderErr.validityDateNotFuture] := by
  refine ⟨rfl, ?_⟩
  have h2 : nonDisplayLines [sampleLine] = [sampleLine] := by
    simp [nonDisplayLines, sampleLine, List.filter]
  have hv : validate_order staleConfirmedOrder 0 = [OrderErr.validityDateNotFuture] := by
    simp only [validate_order, staleConfirmedOrder, h2, lines_validate,
      List.findSome?, sample_line_validate_ok]
    norm_num
    simp
  simp only [action_confirm]
  rw [show sampleEnv.today = (0 : ℤ) from rfl, hv]
  simp

/-- C4 amended: when action_confirm succeeds on an order (so the order
still passes validation), running action_confirm again on the result with
the resulting environment is a no-op: it returns the identical order
(same state, same reference name) and the identical environment, so no
further sequence number is consumed.  A second call can still fail when
validation no longer passes. -/
theorem action_confirm_idempotent_when_valid (env : Env) (precision : ℕ)
    (o o₂ : OrderRec) (env₂ : Env)
    (h : action_confirm env precision o = Except.ok (o₂, env₂)) :
    action_confirm env₂ precision o₂ = Except.ok (o₂, env₂) := by
  simp only [action_confirm] at h ⊢
  split at h
  · exact absurd h (by simp)
  case isFalse hne =>
    split at h
    case isTrue hc =>
      rw [Except.ok.injEq, Prod.mk.injEq] at h
      obtain ⟨ho, henv⟩ := h
      subst ho
      subst henv
      rw [if_neg hne, if_pos hc]
    case isFalse hc =>
      rw [Except.ok.injEq, Prod.mk.injEq] at h
      obtain ⟨ho, henv⟩ := h
      subst ho
      subst henv
      have he2 : validate_order
          (recompute_state { o with confirmed := true, name := some env.seq }
            env.today precision)
          ({ env with seq := env.seq + 1 } : Env).today = [] := not_ne_iff.mp hne
      rw [if_neg (not_ne_iff.mpr he2)]
      rfl

/-- C4 witness: confirming the freshly-confirmed sample order again with
the post-confirmation environment returns the same order and environment
unchanged. -/
theorem action_confirm_idempotent_witness :
    action_confirm sampleEnvAfter 2 confirmedSampleOrder
      = Except.ok (confirmedSampleOrder, sampleEnvAfter) :=
  action_confirm_idempotent_when_valid sampleEnv 2 sampleOrder confirmedSampleOrder
    sampleEnvAfter sample_confirm_eval

/-! Validation decomposition lemmas for C5. -/

theorem validate_line_eq_nil_iff (l : BOLine)
    (hshape : l.displayType = none → l.productId ≠ none ∧ l.productUom ≠ none) :
    validate_line l = [] ↔
      (l.displayType = none → 0 < l.priceUnit ∧ 0 < l.originalUomQty) := by
  by_cases hd : l.displayType = none
  · obtain ⟨hpid, huom⟩ := hshape hd
    by_cases hp2 : l.priceUnit ≤ 0
    · simp [validate_line, hd, hpid, huom, hp2, not_lt.mpr hp2]
    · by_cases hq2 : l.originalUomQty ≤ 0
      · simp [validate_line, hd, hpid, huom, hp2, hq2, not_lt.mpr hq2]
      · simp [validate_line, hd, hpid, huom, hp2, hq2, not_le.mp hp2, not_le.mp hq2]
  · simp [validate_line, hd]

theorem lines_validate_eq_none_iff (ls : List BOLine) :
    lines_validate ls = none ↔ ∀ l ∈ ls, validate_line l = [] := by
  unfold lines_validate
  rw [List.findSome?_eq_none_iff]
  constructor
  · intro h l hl
    have h2 := h l hl
    by_cases he : validate_line l = []
    · exact he
    · simp [he] at h2
  · intro h l hl
    simp [h l hl]

theorem nonDisplayLines_mem (lines : List BOLine) (l : BOLine) :
    l ∈ nonDisplayLines lines ↔ l ∈ lines ∧ l.displayType = none := by
  simp [nonDisplayLines, List.mem_filter]

theorem validity_part_iff (vd : Option ℤ) (t : ℤ) :
    (match vd with
     | none => [OrderErr.missingValidityDate]
     | some d => if d ≤ t then [OrderErr.validityDateNotFuture] else []) = []
    ↔ ∃ d, vd = some d ∧ t < d := by
  cases vd with
  | none => simp
  | some d =>
    by_cases h : d ≤ t
    · simp [h, not_lt.mpr h]
    · simp [h, not_le.mp h]

theorem partner_part_iff (pid : Option ℕ) :
    (if pid = none then [OrderErr.missingPartner] else []) = [] ↔ pid ≠ none := by
  by_cases h : pid = none <;> simp [h]

theorem lines_part_iff (lines : List BOLine)
    (hsql : ∀ l ∈ lines, l.displayType = none → l.productId ≠ none ∧ l.productUom ≠ none) :
    (match nonDisplayLines lines with
     | [] => [OrderErr.noLines]
     | ls =>
       match lines_validate ls with
       | some errs => [OrderErr.lineErrors errs]
       | none => []) = []
    ↔ ((∃ l ∈ lines, l.displayType = none) ∧
       ∀ l ∈ lines, l.displayType = none → 0 < l.priceUnit ∧ 0 < l.originalUomQty) := by
  cases hnd : nonDisplayLines lines with
  | nil =>
    simp only [hnd]
    constructor
    · intro h
      exact absurd h (by simp)
    · rintro ⟨⟨l, hl, hdl⟩, -⟩
      have hmem : l ∈ nonDisplayLines lines := (nonDisplayLines_mem lines l).mpr ⟨hl, hdl⟩
      rw [hnd] at hmem
      exact absurd hmem (List.not_mem_nil l)
  | cons x xs =>
    simp only [hnd]
    cases hlv : lines_validate (x :: xs) with
    | some errs =>
      simp only [hlv]
      constructor
      · intro h
        exact absurd h (by simp)
      · rintro ⟨-, hall⟩
        have hnone : lines_validate (x :: xs) = none := by
          rw [lines_validate_eq_none_iff]
          intro l hl
          have hmem : l ∈ nonDisplayLines lines := hnd ▸ hl
          obtain ⟨hl2, hd2⟩ := (nonDisplayLines_mem lines l).mp hmem
          exact (validate_line_eq_nil_iff l (hsql l hl2)).mpr
            (fun _ => hall l hl2 hd2)
        rw [hnone] at hlv
        exact absurd hlv (by simp)
    | none =>
      simp only [hlv]
      constructor
      · intro _
        constructor
        · have hx : x ∈ nonDisplayLines lines := by
            rw [hnd]
            exact List.mem_cons_self x xs
          obtain ⟨hxl, hxd⟩ := (nonDisplayLines_mem lines x).mp hx
          exact ⟨x, hxl, hxd⟩
        · intro l hl hdl
          have hmem : l ∈ nonDisplayLines lines := (nonDisplayLines_mem lines l).mpr ⟨hl, hdl⟩
          rw [hnd] at hmem
          have hv := (lines_validate_eq_none_iff (x :: xs)).mp hlv l hmem
          exact (validate_line_eq_nil_iff l (hsql l hl)).mp hv hdl
      · intro _
        trivial

/-- C5: under the shape guaranteed by the accountable_required_fields SQL
constraint (every persisted non-display line has a product and a unit of
measure), BlanketOrder._validate succeeds exactly when the validity date
is present and strictly in the future, the customer is present, at least
one non-section line exists, and every non-section line has positive
price and positive quantity; action_confirm raises exactly the validation
errors before any mutation when validation fails, and succeeds when it
passes. -/
theorem confirm_validation_exact_conditions (o : OrderRec) (env : Env) (p : ℕ)
    (hsql : ∀ l ∈ o.lines,
      l.displayType = none → l.productId ≠ none ∧ l.productUom ≠ none) :
    (validate_order o env.today = [] ↔
      ((∃ d, o.validityDate = some d ∧ env.today < d) ∧
        o.partnerId ≠ none ∧
        (∃ l ∈ o.lines, l.displayType = none) ∧
        ∀ l ∈ o.lines, l.displayType = none → 0 < l.priceUnit ∧ 0 < l.originalUomQty)) ∧
    (validate_order o env.today ≠ [] →
      action_confirm env p o = Except.error (validate_order o env.today)) ∧
    (validate_order o env.today = [] →
      ∃ r, action_confirm env p o = Except.ok r) := by
  refine ⟨?_, ?_, ?_⟩
  · unfold validate_order
    rw [List.append_eq_nil, List.append_eq_nil]
    rw [validity_part_iff, partner_part_iff, lines_part_iff o.lines hsql]
    tauto
  · intro hne
    simp only [action_confirm]
    rw [if_pos hne]
  · intro he
    simp only [action_confirm]
    rw [if_neg (not_ne_iff.mpr he)]
    by_cases hc : o.confirmed
    · exact ⟨(o, env), by rw [if_pos hc]⟩
    · exact ⟨_, by rw [if_neg hc]⟩

/-- C5 witness: the sample draft order satisfies all the conditions and
action_confirm succeeds on it. -/
theorem confirm_validation_witness :
    ∃ r, action_confirm sampleEnv 2 sampleOrder = Except.ok r := by
  have hsql : ∀ l ∈ sampleOrder.lines,
      l.displayType = none → l.productId ≠ none ∧ l.productUom ≠ none := by
    intro l hl
    simp only [sampleOrder, List.mem_singleton] at hl
    subst hl
    simp [sampleLine]
  exact (confirm_validation_exact_conditions sampleOrder sampleEnv 2 hsql).2.2
    sample_validate_ok

/-- C6 counterexample: a draft sale order is a non-cancelled draw-down
referencing the blanket order, yet action_cancel succeeds, contradicting
the claim that any non-cancelled draw-down blocks cancellation. -/
theorem cancel_allowed_with_draft_drawdown :
    SaleOrderState.draft ≠ SaleOrderState.cancel ∧
    action_cancel staleConfirmedOrder [SaleOrderState.draft]
      = Except.ok { staleConfirmedOrder with state := BOState.expired } := by
  refine ⟨by simp, ?_⟩
  have hact : check_active_orders [SaleOrderState.draft] = false := by
    simp [check_active_orders]
  simp [action_cancel, hact, staleConfirmedOrder]

/-- C6 amended: cancellation is rejected exactly when some referencing
draw-down order is in a state other than cancel and draft (so cancelled
and still-draft draw-downs do not block); when no such order exists the
cancel succeeds, the order ends expired, and cancelling again is a
no-op. -/
theorem cancel_blocked_iff_active_drawdown (o : OrderRec)
    (sos : List SaleOrderState) :
    (check_active_orders sos = true ↔
      ∃ s ∈ sos, s ≠ SaleOrderState.cancel ∧ s ≠ SaleOrderState.draft) ∧
    (check_active_orders sos = true →
      action_cancel o sos = Except.error CancelErr.activeOrders) ∧
    (check_active_orders sos = false →
      ∃ o₂, action_cancel o sos = Except.ok o₂ ∧ o₂.state = BOState.expired ∧
        action_cancel o₂ sos = Except.ok o₂) := by
  refine ⟨?_, ?_, ?_⟩
  · simp [check_active_orders, List.any_eq_true]
  · intro h
    simp [action_cancel, h]
  · intro h
    by_cases hs : o.state = BOState.expired
    · refine ⟨o, ?_, hs, ?_⟩ <;> simp [action_cancel, h, hs]
    · refine ⟨{ o with state := BOState.expired }, ?_, rfl, ?_⟩
      · simp [action_cancel, h, hs]
      · simp [action_cancel, h]

/-- C6 witness: a sale-state draw-down blocks cancelling the sample order;
with no draw-downs the cancel succeeds, yields an expired order, and a
second cancel is a no-op. -/
theorem cancel_blocked_witness :
    action_cancel sampleOrder [SaleOrderState.sale]
      = Except.error CancelErr.activeOrders ∧
    ∃ o₂, action_cancel sampleOrder [] = Except.ok o₂ ∧
      o₂.state = BOState.expired ∧ action_cancel o₂ [] = Except.ok o₂ := by
  refine ⟨(cancel_blocked_iff_active_drawdown sampleOrder
      [SaleOrderState.sale]).2.1 (by simp [check_active_orders]),
    (cancel_blocked_iff_active_drawdown sampleOrder []).2.2
      (by simp [check_active_orders])⟩

/-! State-purity run lemmas for C7. -/

theorem sample_state_opened :
    compute_state true (some 30) [sampleLine] 0 2 = BOState.opened := by
  have h2 : nonDisplayLines [sampleLine] = [sampleLine] := by
    simp [nonDisplayLines, sampleLine, List.filter]
  simp only [compute_state, h2, List.map_cons, List.map_nil, List.sum_cons,
    List.sum_nil]
  norm_num [sampleLine, not_float_is_zero_ten]

theorem apply_op_state_inv (env : Env) (p : ℕ) (o : OrderRec) (op : BOOp)
    (h : o.state = compute_state o.confirmed o.validityDate o.lines env.today p
         ∨ o.state = BOState.expired) :
    (apply_op env p o op).state
      = compute_state (apply_op env p o op).confirmed
          (apply_op env p o op).validityDate (apply_op env p o op).lines env.today p
      ∨ (apply_op env p o op).state = BOState.expired := by
  cases op with
  | recompute => exact Or.inl rfl
  | confirmOp =>
    simp only [apply_op]
    by_cases he : validate_order o env.today = []
    · by_cases hc : o.confirmed
      · simp only [action_confirm, if_neg (not_ne_iff.mpr he), if_pos hc]
        exact h
      · simp only [action_confirm, if_neg (not_ne_iff.mpr he), if_neg hc]
        exact Or.inl rfl
    · simp only [action_confirm, if_pos he]
      exact h
  | cancelOp =>
    simp only [apply_op]
    by_cases ha : check_active_orders env.drawdownStates = true
    · simp only [action_cancel, if_pos ha]
      exact h
    · by_cases hs : o.state = BOState.expired
      · simp only [action_cancel, if_neg ha, if_neg (not_ne_iff.mpr hs)]
        exact Or.inr hs
      · simp only [action_cancel, if_neg ha, if_pos hs]
        exact Or.inr trivial
  | resetToDraft =>
    simp only [apply_op, set_to_draft]
    by_cases hcond : o.state ≠ BOState.draft ∨ o.confirmed = true
    · rw [if_pos hcond]
      exact Or.inl rfl
    · rw [if_neg hcond]
      exact h

theorem run_ops_state_inv (env : Env) (p : ℕ) (ops : List BOOp) :
    ∀ o : OrderRec,
      (o.state = compute_state o.confirmed o.validityDate o.lines env.today p
        ∨ o.state = BOState.expired) →
      ((run_ops env p o ops).state
          = compute_state (run_ops env p o ops).confirmed
              (run_ops env p o ops).validityDate (run_ops env p o ops).lines
              env.today p
        ∨ (run_ops env p o ops).state = BOState.expired) := by
  induction ops with
  | nil => exact fun o h => h
  | cons op ops ih =>
    intro o h
    exact ih (apply_op env p o op) (apply_op_state_inv env p o op h)

/-- C7 counterexample: starting from a consistent draft order, confirming
and then cancelling leaves the stored state field at expired while the
pure derivation function applied to the current confirmed flag, validity
date and lines yields open — the stored state is not a pure function of
those inputs after action_cancel. -/
theorem stored_state_diverges_after_cancel :
    (run_ops sampleEnv 2 sampleOrder [BOOp.confirmOp, BOOp.cancelOp]).state
        = BOState.expired ∧
    compute_state
        (run_ops sampleEnv 2 sampleOrder [BOOp.confirmOp, BOOp.cancelOp]).confirmed
        (run_ops sampleEnv 2 sampleOrder [BOOp.confirmOp, BOOp.cancelOp]).validityDate
        (run_ops sampleEnv 2 sampleOrder [BOOp.confirmOp, BOOp.cancelOp]).lines
        sampleEnv.today 2
      = BOState.opened ∧
    (BOState.expired : BOState) ≠ BOState.opened := by
  have h1 : apply_op sampleEnv 2 sampleOrder BOOp.confirmOp = confirmedSampleOrder := by
    simp [apply_op, sample_confirm_eval]
  have hact : check_active_orders sampleEnv.drawdownStates = false := by
    simp [sampleEnv, check_active_orders]
  have h2 : apply_op sampleEnv 2 confirmedSampleOrder BOOp.cancelOp
      = { confirmedSampleOrder with state := BOState.expired } := by
    simp [apply_op, action_cancel, hact, confirmedSampleOrder, sampleOrder]
  have hrun : run_ops sampleEnv 2 sampleOrder [BOOp.confirmOp, BOOp.cancelOp]
      = { confirmedSampleOrder with state := BOState.expired } := by
    simp [run_ops, h1, h2]
  refine ⟨by rw [hrun], ?_, by simp⟩
  rw [hrun]
  exact sample_state_opened

/-- C7 amended: starting from any order whose stored state agrees with the
derivation, after any run of lifecycle operations the stored state either
still equals the derivation applied to the current confirmed flag,
validity date and lines, or equals expired as forced directly by
action_cancel; the derivation itself is a pure function of that tuple, so
apart from the cancel override the state is never path-dependent. -/
theorem state_derived_or_cancel_forced (env : Env) (p : ℕ) (o : OrderRec)
    (ops : List BOOp)
    (h : o.state = compute_state o.confirmed o.validityDate o.lines env.today p) :
    (run_ops env p o ops).state
      = compute_state (run_ops env p o ops).confirmed
          (run_ops env p o ops).validityDate (run_ops env p o ops).lines
          env.today p
    ∨ (run_ops env p o ops).state = BOState.expired :=
  run_ops_state_inv env p ops o (Or.inl h)

/-- C7 witness: running a confirm on the consistent sample draft order
keeps the stored state within the amended invariant. -/
theorem state_derived_witness :
    (run_ops sampleEnv 2 sampleOrder [BOOp.confirmOp]).state
      = compute_state (run_ops sampleEnv 2 sampleOrder [BOOp.confirmOp]).confirmed
          (run_ops sampleEnv 2 sampleOrder [BOOp.confirmOp]).validityDate
          (run_ops sampleEnv 2 sampleOrder [BOOp.confirmOp]).lines
          sampleEnv.today 2
    ∨ (run_ops sampleEnv 2 sampleOrder [BOOp.confirmOp]).state = BOState.expired :=
  state_derived_or_cancel_forced sampleEnv 2 sampleOrder [BOOp.confirmOp]
    (by simp [sampleOrder, compute_state])

/-- C10: a line created with any display type set comes out with no
product, zero unit price and no unit of measure regardless of the supplied
values, and every created line satisfies the non_accountable_null_fields
SQL check constraint that keeps this shape for persisted lines. -/
theorem display_type_create_forces_null_fields (v : LineVals) :
    (v.displayType ≠ none →
      (line_create v).displayType = v.displayType ∧
      (line_create v).productId = none ∧
      (line_create v).priceUnit = 0 ∧
      (line_create v).productUom = none) ∧
    non_accountable_null_fields (line_create v) := by
  constructor
  · intro h
    simp [line_create, h]
  · by_cases h : v.displayType = none
    · simp [non_accountable_null_fields, line_create, h]
    · simp [non_accountable_null_fields, line_create, h]

/-- C10 witness: creating a section line that tries to smuggle in a
product, a price of 9 and a unit of measure yields a line with no product,
price 0 and no unit. -/
theorem display_type_create_witness :
    (line_create sectionVals).productId = none ∧
    (line_create sectionVals).priceUnit = 0 ∧
    (line_create sectionVals).productUom = none := by
  have h := (display_type_create_forces_null_fields sectionVals).1
    (by simp [sectionVals])
  exact ⟨h.2.1, h.2.2.1, h.2.2.2⟩
